import Mathlib

/-!
Verification of the resilience / concurrency-control layer of the OmniChain
point-of-sale platform: rate limiter (pkg/middleware/ratelimit.go), bulkhead
(pkg/performance/bulkhead.go), worker pool (pkg/performance/workerpool.go),
circuit breaker (pkg/pagination/cursor.go), and single-flight cache
(pkg/cache, SingleFlightCache).

Go code is shallowly embedded: per-request handler logic becomes a pure
function over an explicit store state; Go `select` nondeterminism (several
ready cases are chosen pseudo-randomly) is made explicit through `pick`
parameters or choice oracles; Unix timestamps and durations are `Nat`
seconds as in the source (`time.Now().Unix()`, `window.Seconds()`).
-/

namespace OmniChain

/-! ## Rate limiter (src/pkg/middleware/ratelimit.go)

`RateLimiter.RateLimitMiddleware` runs, per request, a sliding-window log
against Redis: ZRemRangeByScore(key, 0, now-window) removes old entries,
ZCard counts the survivors (on a ZCard error the request is allowed: fail
open), a count ≥ limit is rejected with retry_after = window.Seconds(),
otherwise ZAdd records `now` and the request is allowed.  The ZAdd member
is fmt.Sprintf("%d", now) — the Unix-second timestamp string — and a
Redis sorted set holds each member at most once, so requests sharing a
Unix second collapse to a single member.  The sorted set for one
identifier is embedded as a duplicate-free list of Nat members (their
scores equal the members here, as in the source). -/

structure RateLimiter where
  limit : Nat
  window : Nat

/-- Outcome of one pass through the middleware for one request. -/
inductive RLResult where
  | allowed
  | denied (retryAfter : Nat)
  deriving DecidableEq, Repr

/-- ZREMRANGEBYSCORE key 0 windowStart: drop every member whose score lies
in [0, windowStart] (inclusive), keeping scores strictly greater. -/
def zRemRangeByScore (entries : List Nat) (windowStart : Int) : List Nat :=
  entries.filter (fun t => windowStart < (t : Int))

/-- ZADD key now now: a sorted set keys on the member, so adding a member
that is already present only restates its score — the cardinality does
not grow. -/
def zAdd (entries : List Nat) (now : Nat) : List Nat :=
  if now ∈ entries then entries else entries ++ [now]

/-- One request through `RateLimitMiddleware` for a single identifier:
`entries` is the identifier's sorted-set state, `now` the Unix second,
`cardFails` whether the ZCard round-trip to Redis returns an error.
Returns the decision and the new sorted-set state.  Mirrors
ratelimit.go lines 41-68: windowStart := now - window; remove old
entries; on a count error allow (fail open, no ZAdd); if count ≥ limit
deny with retry_after = window; else ZAdd the current timestamp (member
fmt.Sprintf("%d", now), deduplicated by the sorted set). -/
def RateLimiter.RateLimitMiddleware (rl : RateLimiter) (now : Nat)
    (entries : List Nat) (cardFails : Bool) : RLResult × List Nat :=
  let windowStart : Int := (now : Int) - (rl.window : Int)
  let entries := zRemRangeByScore entries windowStart
  if cardFails then
    (RLResult.allowed, entries)
  else if rl.limit ≤ entries.length then
    (RLResult.denied rl.window, entries)
  else
    (RLResult.allowed, zAdd entries now)

/-- A sequence of requests at the given timestamps, all with a healthy
store; returns the decisions in order and the final sorted-set state. -/
def RateLimiter.run (rl : RateLimiter) (entries : List Nat) :
    List Nat → List RLResult × List Nat
  | [] => ([], entries)
  | now :: rest =>
    let (r, entries') := rl.RateLimitMiddleware now entries false
    let (rs, final) := rl.run entries' rest
    (r :: rs, final)

/-! ## Bulkhead (src/pkg/performance/bulkhead.go)

`Bulkhead.Execute(ctx, fn)` is a single Go `select` with three cases:
send on the buffered semaphore channel (ready iff fewer than
maxConcurrency slots are occupied; taking it runs `fn` and releases the
slot on return), receive on ctx.Done() (ready iff the context is
cancelled; returns ctx.Err()), and `default` (taken only when no other
case is ready; returns ErrBulkheadFull).  When both the semaphore send
and ctx.Done() are ready, Go chooses between them pseudo-randomly; that
choice is the explicit `pick` argument (true = the ctx.Done() case). -/

inductive GoError where
  | bulkheadFull
  | contextCanceled
  | fnErr (code : Nat)
  deriving DecidableEq, Repr

/-- What one Execute call did: whether `fn` was invoked, and the error
returned (`none` = nil). -/
structure BulkheadOutcome where
  fnInvoked : Bool
  result : Option GoError
  deriving DecidableEq, Repr

/-- One `Bulkhead.Execute` call at a moment when `current` of the
`maxConcurrency` semaphore slots are occupied, embedding the select of
bulkhead.go lines 32-50. -/
def Bulkhead.Execute (maxConcurrency current : Nat) (cancelled : Bool)
    (pick : Bool) (fnResult : Option GoError) : BulkheadOutcome :=
  if current < maxConcurrency then
    if cancelled ∧ pick then ⟨false, some .contextCanceled⟩
    else ⟨true, fnResult⟩
  else if cancelled then ⟨false, some .contextCanceled⟩
  else ⟨false, some .bulkheadFull⟩

/-! ## Worker pool (src/pkg/performance/workerpool.go)

`Stop()` runs close(taskQueue); cancel(); wg.Wait().  After it, each
worker's select has both cases ready forever: receiving from the closed
taskQueue (a queued task if any remain, otherwise the zero value nil,
which the `task != nil` guard skips) and receiving from the cancelled
ctx.Done() (the worker returns).  Go resolves each iteration's select
pseudo-randomly; the oracle list makes those choices explicit
(true = the taskQueue case, false = the ctx.Done() case). -/

/-- One worker's iterations after Stop(): given the select-choice oracle
and the tasks still queued, returns (tasks executed in order, tasks left
in the queue, whether the worker has returned).  If the oracle runs out
the worker is still looping (exited = false). -/
def WorkerPool.workerAfterStop : List Bool → List Nat → List Nat × List Nat × Bool
  | [], qs => ([], qs, false)
  | c :: cs, qs =>
    if c then
      match qs with
      | [] => WorkerPool.workerAfterStop cs []
      | t :: ts =>
        let r := WorkerPool.workerAfterStop cs ts
        (t :: r.1, r.2.1, r.2.2)
    else ([], qs, true)

inductive SubmitResult where
  | enqueued
  | canceled
  | panicked
  | blocked
  deriving DecidableEq, Repr

/-- `WorkerPool.Submit` (workerpool.go lines 52-59): a select between
sending the task on taskQueue and receiving from ctx.Done().  A send on
a closed channel is a ready case that panics when chosen; a send on an
open channel is ready iff the buffer has room; with no ready case and no
cancellation the caller blocks.  `pick` resolves the pseudo-random
choice when both cases are ready (true = the ctx.Done() case). -/
def WorkerPool.Submit (closed : Bool) (queueLen queueCap : Nat)
    (cancelled : Bool) (pick : Bool) : SubmitResult :=
  let sendReady := closed ∨ queueLen < queueCap
  let sendOutcome := if closed then SubmitResult.panicked else SubmitResult.enqueued
  if sendReady then
    if cancelled ∧ pick then SubmitResult.canceled else sendOutcome
  else if cancelled then SubmitResult.canceled
  else SubmitResult.blocked

/-! ## Circuit breaker (src/pkg/pagination/cursor.go, lines 100-220)

Sequential embedding of `CircuitBreaker`: times are Nat seconds,
`time.Since(lastFailTime) >= resetTimeout` becomes
`resetTimeout ≤ now - lastFailTime`.  The wrapped fn is summarised by
whether it succeeds; `Call` returns the updated breaker and what
happened. -/

inductive CircuitBreakerState where
  | stateClosed
  | stateOpen
  | stateHalfOpen
  deriving DecidableEq, Repr

structure CircuitBreaker where
  maxFailures : Nat
  resetTimeout : Nat
  state : CircuitBreakerState
  failureCount : Nat
  lastFailTime : Nat
  deriving DecidableEq, Repr

def NewCircuitBreaker (maxFailures resetTimeout : Nat) : CircuitBreaker :=
  ⟨maxFailures, resetTimeout, .stateClosed, 0, 0⟩

def CircuitBreaker.setState (cb : CircuitBreaker) (s : CircuitBreakerState) :
    CircuitBreaker :=
  { cb with state := s }

/-- cursor.go lines 179-190: increment failureCount, stamp lastFailTime;
HalfOpen reopens immediately, otherwise open once the threshold is hit. -/
def CircuitBreaker.recordFailure (cb : CircuitBreaker) (now : Nat) : CircuitBreaker :=
  let cb := { cb with failureCount := cb.failureCount + 1, lastFailTime := now }
  if cb.state = .stateHalfOpen then cb.setState .stateOpen
  else if cb.maxFailures ≤ cb.failureCount then cb.setState .stateOpen
  else cb

/-- cursor.go lines 193-202: reset failureCount; HalfOpen closes. -/
def CircuitBreaker.recordSuccess (cb : CircuitBreaker) : CircuitBreaker :=
  if cb.state = .stateHalfOpen then
    { cb.setState .stateClosed with failureCount := 0 }
  else
    { cb with failureCount := 0 }

inductive CallOutcome where
  | circuitOpenErr
  | fnSucceeded
  | fnFailed
  deriving DecidableEq, Repr

/-- cursor.go lines 147-176: an Open breaker whose cooldown has not
elapsed returns ErrCircuitOpen without invoking fn; an Open breaker past
the cooldown moves to HalfOpen and lets the trial through; otherwise fn
runs and its outcome is recorded. -/
def CircuitBreaker.Call (cb : CircuitBreaker) (now : Nat) (fnOk : Bool) :
    CircuitBreaker × CallOutcome :=
  if cb.state = .stateOpen ∧ now - cb.lastFailTime < cb.resetTimeout then
    (cb, .circuitOpenErr)
  else
    let cb := if cb.state = .stateOpen then cb.setState .stateHalfOpen else cb
    if fnOk then (cb.recordSuccess, .fnSucceeded)
    else (cb.recordFailure now, .fnFailed)

/-- A sequence of Call invocations, each a (time, fnOk) pair. -/
def CircuitBreaker.calls (cb : CircuitBreaker) : List (Nat × Bool) → CircuitBreaker
  | [] => cb
  | (now, ok) :: rest => ((cb.Call now ok).1).calls rest

/-! ## Single-flight cache (src/unnamed/part_012, SingleFlightCache)

`GetWithFallback(ctx, key, ttl, fallback)` checks the cache, and on a
miss runs the per-key singleflight group: double-check the cache, call
fallback, store the result with `ttl` (ignoring a Set error), return the
value.  The store backing the `Cache` interface keeps (value, expiry)
per key. -/

inductive CacheErr where
  | miss
  | setFailed
  | fallbackFailed (code : Nat)
  deriving DecidableEq, Repr

/-- Modelled from the spec: the TTL-expiring store behind the `Cache`
interface (RedisCache delegates TTL to Redis SET, LocalCache to
ristretto SetWithTTL; both external systems absent from the repository).
An association list key ↦ (value, expiry); a Get at `now` returns the
value iff now < expiry, otherwise a cache miss. -/
def cacheGet (st : List (String × String × Nat)) (key : String) (now : Nat) :
    Except CacheErr String :=
  match st.find? (fun e => e.1 == key) with
  | some (_, v, exp) => if now < exp then .ok v else .error .miss
  | none => .error .miss

/-- Modelled from the spec: a successful Set stores the value with
expiry now + ttl, replacing any previous entry for the key. -/
def cacheSet (st : List (String × String × Nat)) (key v : String)
    (now ttl : Nat) : List (String × String × Nat) :=
  (key, v, now + ttl) :: st.filter (fun e => e.1 != key)

/-- Result of one GetWithFallback call: the value or error returned, the
store afterwards, and whether the fallback was invoked. -/
structure SFOutcome where
  result : Except CacheErr String
  cache : List (String × String × Nat)
  fallbackInvoked : Bool
  deriving Repr

/-- The sequential (single-caller) path of
`SingleFlightCache.GetWithFallback` (part_012 lines 37-76): cache hit
returns immediately; otherwise the flight double-checks the cache, runs
the fallback, and on success stores the value — a failing Set
(`setFails`) is ignored and the value is still returned. -/
def SingleFlightCache.GetWithFallback (st : List (String × String × Nat))
    (key : String) (ttl : Nat) (now : Nat)
    (fallback : Except CacheErr String) (setFails : Bool) : SFOutcome :=
  match cacheGet st key now with
  | .ok v => ⟨.ok v, st, false⟩
  | .error _ =>
    match cacheGet st key now with
    | .ok v => ⟨.ok v, st, false⟩
    | .error _ =>
      match fallback with
      | .error e => ⟨.error e, st, true⟩
      | .ok v =>
        let st' := if setFails then st else cacheSet st key v now ttl
        ⟨.ok v, st', true⟩

/-! ### Concurrent single-flight group (claim about M concurrent callers)

Modelled from the spec: `golang.org/x/sync/singleflight.Group.Do` is an
external dependency whose source is not in the repository.  Its per-key
protocol — the first caller to find no flight open becomes the leader
and runs the function once; every caller that joins while the flight is
open waits and receives the leader's result — is modelled as a labelled
transition system over join/complete events; an interleaving of M
concurrent cache-missing callers is any event list in which every join
precedes the flight's completion. -/

inductive SFEvent where
  | join (i : Nat)
  | complete
  deriving DecidableEq, Repr

structure SFGroup where
  inFlight : Bool
  waiters : List Nat
  execCount : Nat
  finished : List (Nat × String)
  deriving DecidableEq, Repr

def SFGroup.init : SFGroup := ⟨false, [], 0, []⟩

/-- One event: a join while a flight is open attaches the caller as a
waiter; a join with no flight open makes the caller the leader, opening
the flight and running the fallback (execCount increments); completion
of the open flight delivers the fallback's value `v` to every attached
caller. -/
def SFGroup.step (v : String) (st : SFGroup) : SFEvent → SFGroup
  | .join i =>
    if st.inFlight then { st with waiters := st.waiters ++ [i] }
    else { st with inFlight := true, waiters := [i],
                   execCount := st.execCount + 1 }
  | .complete =>
    if st.inFlight then
      { st with inFlight := false, waiters := [],
                finished := st.finished ++ st.waiters.map (fun i => (i, v)) }
    else st

def SFGroup.run (v : String) (st : SFGroup) (es : List SFEvent) : SFGroup :=
  es.foldl (SFGroup.step v) st

/-! ## Theorems -/

/-- Claim C1, failing input: with limit=5 and window=1s, six middleware
calls for the same identifier within one second — at second granularity,
six calls share the 1s sliding window only by sharing the Unix-second
timestamp — are ALL allowed: every ZAdd uses the same member string
fmt.Sprintf("%d", now), the sorted set never holds more than one entry,
ZCard never reaches the limit, and the sixth call is not denied as the
claim requires. -/
theorem ratelimit_sixth_call_allowed (now : Nat) :
    (RateLimiter.run ⟨5, 1⟩ [] (List.replicate 6 now)).1 =
      List.replicate 6 .allowed := by
  have h : ((now : Int) - 1 < (now : Int)) = True := by simp
  simp [RateLimiter.run, RateLimiter.RateLimitMiddleware, zRemRangeByScore,
    zAdd, List.replicate, h]

/-- Claim C6: whenever the count query against the shared store fails,
the limiter allows the request (fails open), for every limiter
configuration, time and window state. -/
theorem ratelimit_fail_open (rl : RateLimiter) (now : Nat) (entries : List Nat) :
    (rl.RateLimitMiddleware now entries true).1 = RLResult.allowed := by
  simp [RateLimiter.RateLimitMiddleware]

/-- Claim C2, counterexample: with maxConcurrency=2, no slot occupied, the
context already cancelled, and the select's pseudo-random choice falling
on the semaphore case, Execute invokes fn and returns fn's error rather
than the cancellation error — refuting the claim that a cancelled context
always yields ctx.Err() without invoking fn regardless of capacity. -/
theorem bulkhead_cancelled_cex :
    (Bulkhead.Execute 2 0 true false (some (.fnErr 7))).fnInvoked = true ∧
    (Bulkhead.Execute 2 0 true false (some (.fnErr 7))).result ≠
      some GoError.contextCanceled := by decide

/-- Claim C2, amended: when the context is already cancelled and all
slots are occupied, Execute returns the cancellation error without
invoking fn; when the context is cancelled but a slot is free, the select
chooses pseudo-randomly between returning the cancellation error without
invoking fn and admitting the call (running fn). -/
theorem bulkhead_cancelled_execute (maxC cur : Nat) (pick : Bool)
    (fnR : Option GoError) :
    (maxC ≤ cur → Bulkhead.Execute maxC cur true pick fnR =
      ⟨false, some .contextCanceled⟩) ∧
    (cur < maxC → Bulkhead.Execute maxC cur true pick fnR =
      (if pick then ⟨false, some .contextCanceled⟩ else ⟨true, fnR⟩)) := by
  constructor
  · intro h
    simp [Bulkhead.Execute, Nat.not_lt.mpr h]
  · intro h
    cases pick <;> simp [Bulkhead.Execute, h]

/-- Claim C2, witness: the amended theorem at maxConcurrency=2 with both
slots occupied (cancellation returned) and with a free slot and the
semaphore branch picked (fn admitted). -/
theorem bulkhead_cancelled_execute_witness :
    Bulkhead.Execute 2 2 true true none = ⟨false, some .contextCanceled⟩ ∧
    Bulkhead.Execute 2 1 true false none = ⟨true, none⟩ :=
  ⟨(bulkhead_cancelled_execute 2 2 true none).1 (by decide),
   by simpa using (bulkhead_cancelled_execute 2 1 false none).2 (by decide)⟩

/-- Claim C7: with the context not cancelled, a saturated bulkhead
returns ErrBulkheadFull immediately without invoking fn (the select's
default case — no waiting), and once occupancy drops below
maxConcurrency a call is admitted and fn runs. -/
theorem bulkhead_full_fail_fast (maxC cur : Nat) (pick : Bool)
    (fnR : Option GoError) :
    (maxC ≤ cur → Bulkhead.Execute maxC cur false pick fnR =
      ⟨false, some .bulkheadFull⟩) ∧
    (cur < maxC → Bulkhead.Execute maxC cur false pick fnR = ⟨true, fnR⟩) := by
  constructor
  · intro h
    simp [Bulkhead.Execute, Nat.not_lt.mpr h]
  · intro h
    simp [Bulkhead.Execute, h]

/-- Claim C7, witness: maxConcurrency=2 — a third concurrent call is
rejected with ErrBulkheadFull; after one slot frees (occupancy 1) the
next call is admitted. -/
theorem bulkhead_full_fail_fast_witness :
    Bulkhead.Execute 2 2 false true none = ⟨false, some .bulkheadFull⟩ ∧
    Bulkhead.Execute 2 1 false true none = ⟨true, none⟩ :=
  ⟨(bulkhead_full_fail_fast 2 2 true none).1 (by decide),
   (bulkhead_full_fail_fast 2 1 true none).2 (by decide)⟩

/-- Claim C3, failing input: one worker, one task still queued at
Stop().  The worker's first select after close(taskQueue) and cancel()
takes the ctx.Done() case: the worker exits (so wg.Wait() and hence
Stop() return) with the queued task never executed — the code can drop
a task that was enqueued before Stop, contradicting the drain the spec
states. -/
theorem workerpool_stop_drops_queued_task :
    WorkerPool.workerAfterStop [false] [0] = ([], [0], true) := by decide

/-- Claim C10, counterexample: a Submit after Stop() (queue closed,
context cancelled) whose select choice falls on the ctx.Done() case
returns the cancellation error and does not panic — refuting the claim
that every Submit after Stop panics. -/
theorem submit_after_stop_cex :
    WorkerPool.Submit true 0 5 true true = SubmitResult.canceled ∧
    SubmitResult.canceled ≠ SubmitResult.panicked := by decide

/-- Claim C10, amended: after Stop() both select cases are ready, so a
Submit pseudo-randomly either returns the context cancellation error or
panics (send on the closed task queue); in particular it can panic, so
the interface is unsafe — not merely rejecting — after shutdown. -/
theorem submit_after_stop (queueLen queueCap : Nat) (pick : Bool) :
    WorkerPool.Submit true queueLen queueCap true pick =
      (if pick then SubmitResult.canceled else SubmitResult.panicked) := by
  cases pick <;> simp [WorkerPool.Submit]

/-- Claim C4: with maxFailures=3 and resetTimeout=1s, three consecutive
failing calls at time t0 leave the breaker Open; a call before the
cooldown (still at t0) returns ErrCircuitOpen without invoking fn (the
result is independent of fn and the breaker unchanged); at any t ≥ t0+1
the next call runs fn as a trial — on success the breaker is Closed with
failureCount 0, on failure it is Open again. -/
theorem circuit_breaker_trip_and_reset (t0 t : Nat) (fnOk : Bool)
    (h : t0 + 1 ≤ t) :
    ((NewCircuitBreaker 3 1).calls
        [(t0, false), (t0, false), (t0, false)]).state = .stateOpen ∧
    ((NewCircuitBreaker 3 1).calls
        [(t0, false), (t0, false), (t0, false)]).Call t0 fnOk =
      ((NewCircuitBreaker 3 1).calls [(t0, false), (t0, false), (t0, false)],
        .circuitOpenErr) ∧
    (((NewCircuitBreaker 3 1).calls
        [(t0, false), (t0, false), (t0, false)]).Call t true).1.state =
      .stateClosed ∧
    (((NewCircuitBreaker 3 1).calls
        [(t0, false), (t0, false), (t0, false)]).Call t true).1.failureCount = 0 ∧
    (((NewCircuitBreaker 3 1).calls
        [(t0, false), (t0, false), (t0, false)]).Call t true).2 = .fnSucceeded ∧
    (((NewCircuitBreaker 3 1).calls
        [(t0, false), (t0, false), (t0, false)]).Call t false).1.state =
      .stateOpen ∧
    (((NewCircuitBreaker 3 1).calls
        [(t0, false), (t0, false), (t0, false)]).Call t false).2 = .fnFailed := by
  have hcb : (NewCircuitBreaker 3 1).calls [(t0, false), (t0, false), (t0, false)] =
      ⟨3, 1, .stateOpen, 3, t0⟩ := by
    simp [NewCircuitBreaker, CircuitBreaker.calls, CircuitBreaker.Call,
      CircuitBreaker.recordFailure, CircuitBreaker.recordSuccess,
      CircuitBreaker.setState]
  have hlt : ¬ (t - t0 < 1) := by omega
  rw [hcb]
  refine ⟨rfl, ?_, ?_, ?_, ?_, ?_, ?_⟩ <;>
    simp [CircuitBreaker.Call, CircuitBreaker.recordFailure,
      CircuitBreaker.recordSuccess, CircuitBreaker.setState, hlt]

/-- Claim C4, witness: the trip-and-reset theorem at t0 = 0, trial
time t = 1. -/
theorem circuit_breaker_trip_and_reset_witness :
    (0 : Nat) + 1 ≤ 1 ∧
    ((NewCircuitBreaker 3 1).calls
        [(0, false), (0, false), (0, false)]).state = .stateOpen ∧
    (((NewCircuitBreaker 3 1).calls
        [(0, false), (0, false), (0, false)]).Call 1 true).1.state =
      .stateClosed :=
  ⟨by decide, (circuit_breaker_trip_and_reset 0 1 true (by decide)).1,
   (circuit_breaker_trip_and_reset 0 1 true (by decide)).2.2.1⟩

/-- Helper: while a flight is open, any sequence of joins only appends
waiters — the flight stays open, the execution count does not change. -/
theorem sfGroup_run_joins (v : String) (w : List Nat) (ec : Nat)
    (fin : List (Nat × String)) (is : List Nat) :
    SFGroup.run v ⟨true, w, ec, fin⟩ (is.map SFEvent.join) =
      ⟨true, w ++ is, ec, fin⟩ := by
  induction is generalizing w with
  | nil => simp [SFGroup.run]
  | cons i rest ih =>
    simp only [List.map_cons, SFGroup.run, List.foldl_cons, SFGroup.step,
      if_pos trivial]
    simpa using ih (w ++ [i])

/-- Claim C5: for any number of concurrent callers i0 :: rest that all
join the per-key group while no live cache entry exists and before the
flight completes, the fallback runs exactly once (execCount = 1) and
every caller receives the identical value v. -/
theorem single_flight_exactly_once (v : String) (i0 : Nat) (rest : List Nat) :
    (SFGroup.run v .init
        ((i0 :: rest).map SFEvent.join ++ [SFEvent.complete])).execCount = 1 ∧
    (SFGroup.run v .init
        ((i0 :: rest).map SFEvent.join ++ [SFEvent.complete])).finished =
      (i0 :: rest).map (fun i => (i, v)) := by
  have h1 : SFGroup.run v .init ((i0 :: rest).map SFEvent.join) =
      ⟨true, i0 :: rest, 1, []⟩ := by
    have h0 : SFGroup.step v .init (SFEvent.join i0) = ⟨true, [i0], 1, []⟩ := by
      simp [SFGroup.step, SFGroup.init]
    simp only [List.map_cons, SFGroup.run, List.foldl_cons, h0]
    simpa using sfGroup_run_joins v [i0] 1 [] rest
  have h2 : SFGroup.run v .init ((i0 :: rest).map SFEvent.join ++ [SFEvent.complete]) =
      SFGroup.step v (SFGroup.run v .init ((i0 :: rest).map SFEvent.join))
        SFEvent.complete := by
    simp [SFGroup.run]
  rw [h2, h1]
  simp [SFGroup.step]

/-- Claim C8: when the cache misses and the fallback succeeds with v, the
call returns v with no error even when storing the result fails
(setFails = true): the cache-set failure never fails the overall call. -/
theorem getWithFallback_set_failure (st : List (String × String × Nat))
    (key v : String) (ttl now : Nat) (e : CacheErr) (setFails : Bool)
    (h : cacheGet st key now = .error e) :
    (SingleFlightCache.GetWithFallback st key ttl now (.ok v) setFails).result =
      .ok v := by
  simp [SingleFlightCache.GetWithFallback, h]

/-- Claim C8, witness: an empty cache, a fallback producing "v", and a
failing Set still yield Ok "v". -/
theorem getWithFallback_set_failure_witness :
    (SingleFlightCache.GetWithFallback [] "k" 100 0 (.ok "v") true).result =
      .ok "v" :=
  getWithFallback_set_failure [] "k" "v" 100 0 .miss true rfl

/-- Claim C9: a live cache entry is returned immediately with the
fallback not invoked; after a population at t0 with ttl=100ms, a call at
t < t0+100 returns the cached value without invoking the fallback, and a
call at t ≥ t0+100 invokes the fallback again. -/
theorem getWithFallback_ttl (st : List (String × String × Nat))
    (key v w : String) (ttl t0 t : Nat) (fb : Except CacheErr String)
    (sf : Bool) :
    (cacheGet st key t = .ok w →
      SingleFlightCache.GetWithFallback st key ttl t fb sf = ⟨.ok w, st, false⟩) ∧
    (t < t0 + 100 →
      SingleFlightCache.GetWithFallback (cacheSet st key v t0 100) key ttl t fb sf =
        ⟨.ok v, cacheSet st key v t0 100, false⟩) ∧
    (t0 + 100 ≤ t →
      (SingleFlightCache.GetWithFallback (cacheSet st key v t0 100) key ttl t fb
        sf).fallbackInvoked = true) := by
  refine ⟨?_, ?_, ?_⟩
  · intro h
    simp [SingleFlightCache.GetWithFallback, h]
  · intro h
    have hget : cacheGet (cacheSet st key v t0 100) key t = .ok v := by
      simp [cacheGet, cacheSet, List.find?, h]
    simp [SingleFlightCache.GetWithFallback, hget]
  · intro h
    have hget : cacheGet (cacheSet st key v t0 100) key t = .error .miss := by
      simp [cacheGet, cacheSet, List.find?, Nat.not_lt.mpr h]
    cases fb with
    | ok fv => simp [SingleFlightCache.GetWithFallback, hget]
    | error fe => simp [SingleFlightCache.GetWithFallback, hget]

/-- Claim C9, witness: a hit on a live entry at t = 50 < 100 returns the
cached "v" without the fallback; after populating at t0 = 0 with
ttl = 100, a call at t = 50 skips the fallback and a call at t = 150
invokes it. -/
theorem getWithFallback_ttl_witness :
    SingleFlightCache.GetWithFallback [("k", "v", 100)] "k" 100 50 (.ok "w") false =
      ⟨.ok "v", [("k", "v", 100)], false⟩ ∧
    (SingleFlightCache.GetWithFallback (cacheSet [] "k" "v" 0 100) "k" 100 50
      (.ok "w") false).fallbackInvoked = false ∧
    (SingleFlightCache.GetWithFallback (cacheSet [] "k" "v" 0 100) "k" 100 150
      (.ok "w") false).fallbackInvoked = true := by
  refine ⟨(getWithFallback_ttl [("k", "v", 100)] "k" "v" "v" 100 0 50 (.ok "w")
      false).1 rfl, ?_,
    (getWithFallback_ttl [] "k" "v" "w" 100 0 150 (.ok "w") false).2.2 (by decide)⟩
  have h := (getWithFallback_ttl [] "k" "v" "w" 100 0 50 (.ok "w") false).2.1
    (by decide)
  rw [h]

end OmniChain
